import Mathlib

/-!
Shallow embedding of `legal_documents.py`: pure string-building generators for
seven Indian legal document kinds, plus the two formatting helpers.  Python
strings are modelled as Lean `String`; Python string interpolation becomes
explicit concatenation; Python optional values become `Option`; `dict` access
that can raise `KeyError` becomes `Except`.  Keyword-call wrappers model the
Python calling convention, where omitting a required positional argument
raises `TypeError` before the function body runs.
-/

namespace Legal

/-- Python str.center(width) (CPython unicode_center): if the text is at
least as long as `width` it is returned unchanged; otherwise the margin
`width - len` is split as `left = marg / 2 + (marg &&& width &&& 1)`,
i.e. the extra space goes left exactly when both `marg` and `width` are odd. -/
def pyCenter (s : String) (width : Nat) : String :=
  if s.length ≥ width then s
  else
    let marg := width - s.length
    let left := marg / 2 + (if marg % 2 = 1 ∧ width % 2 = 1 then 1 else 0)
    String.mk (List.replicate left ' ') ++ s ++ String.mk (List.replicate (marg - left) ' ')

/-- Source helper `_center(text, width=80)`: `text.center(width)`. -/
def center_ (text : String) (width : Nat) : String :=
  pyCenter text width

/-- Source helper `_line(width=80)`: a string of `width` underscores. -/
def line_ (width : Nat) : String :=
  String.mk (List.replicate width '_')

/-- Python sep.join(xs). -/
def pyJoin (sep : String) : List String → String
  | [] => ""
  | [x] => x
  | x :: y :: xs => x ++ sep ++ pyJoin sep (y :: xs)

/-- Python `x or d` for an optional string: `None` and the empty string are falsy. -/
def pyOrStr (x : Option String) (d : String) : String :=
  match x with
  | none => d
  | some s => if s = "" then d else s

/-- Python `x or d` for an optional list: `None` and the empty list are falsy. -/
def pyOrList (x : Option (List α)) (d : List α) : List α :=
  match x with
  | none => d
  | some l => if l.isEmpty then d else l

/-- Python str.split(sep) chunks for a one-character separator, on the
character list of the string. -/
def splitChars (sep : Char) : List Char → List (List Char)
  | [] => [[]]
  | c :: rest =>
    if c = sep then [] :: splitChars sep rest
    else
      match splitChars sep rest with
      | [] => [[c]]
      | h :: t => (c :: h) :: t

/-- Python s.split(sep) for a one-character separator. -/
def pySplit (sep : Char) (s : String) : List String :=
  (splitChars sep s.data).map String.mk

/-- Python `c in s` membership test for a single character. -/
def pyInStr (c : Char) (s : String) : Bool :=
  s.data.any (fun x => x = c)

/-- Python str.upper(), character-wise (ASCII range, as in the inputs this
repository handles). -/
def pyUpper (s : String) : String :=
  String.mk (s.data.map Char.toUpper)

/-- Python formatting of the result of dict.get with no default: a missing
key gives `None`, which an f-string renders as the text "None". -/
def pyStrOfGet (o : Option String) : String :=
  match o with
  | some s => s
  | none => "None"

/-- Does the first character list occur contiguously inside the second? -/
def charListHas (pat : List Char) : List Char → Bool
  | [] => pat.isPrefixOf []
  | c :: cs => pat.isPrefixOf (c :: cs) || charListHas pat cs

/-- Does `pat` occur as a contiguous substring of `s`? (executable check) -/
def strHas (s pat : String) : Bool :=
  charListHas pat.data s.data

/-- The substring `pat` occurs contiguously inside `s` (propositional form). -/
def occursIn (pat s : String) : Prop :=
  ∃ a b, s = a ++ (pat ++ b)

/-- The text of `s` strictly before its first comma (used to state what the
name-change verification clause derives from the residence field). -/
def beforeFirstComma (s : String) : String :=
  String.mk (s.data.takeWhile (fun c => c ≠ ','))

/-- `generate_affidavit` (Writ Affidavit), source lines 45-101. -/
def generate_affidavit
    (court_name court_place petition_no year petitioner respondent
     deponent_name deponent_age father_or_husband_name residence : String)
    (paragraphs_true_up_to : Nat)
    (annexures_range verification_place verification_day verification_month : String) :
    String :=
  let header := pyJoin ("\n") [
    center_ ("IN THE HON\x27BLE HIGH COURT OF " ++ pyUpper court_name ++ " AT " ++ pyUpper court_place) 80,
    "",
    center_ ("WRIT PETITION NO. " ++ petition_no ++ " OF " ++ year) 80,
    ""]
  let parties := petitioner ++ "\n    ...Petitioner" ++ "\nVs.\n" ++ respondent ++ "\n    ...Respondent\n\n"
  let body :=
    "AFFIDAVIT OF DEPONENT\n\n" ++ "Affidavit of " ++ deponent_name ++ ", aged about " ++ deponent_age ++
    " years, son/daughter of " ++ father_or_husband_name ++ ", resident of " ++ residence ++ ".\n\nI, " ++
    deponent_name ++
    ", the deponent above-named, do hereby solemnly affirm and state on oath as under:\n\n1. That I am the Petitioner in the aforesaid Writ Petition and I am fully conversant with the facts of the case.\n\n2. That I have read the Writ Petition and the annexures thereto and I fully understand the contents thereof.\n\n3. That the contents of paragraphs 1 to " ++
    toString paragraphs_true_up_to ++
    " of the Writ Petition are true to my own knowledge and belief.\n\n" ++
    "4. That annexures " ++ annexures_range ++ " to the Writ Petition" ++
    " have been compared by me with their respective originals and are certified to be true copies.\n\n5. That no part of this affidavit is false and nothing material has been concealed therefrom.\n\nDEPONENT\nName: " ++
    deponent_name ++ "\nSignature: _______________________\n\nVERIFICATION\n\nI, " ++ deponent_name ++
    ", the above-named deponent, do hereby verify that the contents of paragraphs 1 to 5 of this affidavit are true to my personal knowledge and belief and nothing material has been concealed.\n\nVerified at " ++
    verification_place ++ " on this " ++ verification_day ++ " day of " ++ verification_month ++ ", " ++ year ++
    ".\n\nSignature of Deponent: _______________________\nName: " ++ deponent_name ++ "\n"
  header ++ parties ++ body

/-- A witness entry of the name-change affidavit: a Python dict read with
dict.get, so both keys may be absent. -/
structure NcWitness where
  name : Option String
  address : Option String

/-- The default witness list of `generate_name_change_affidavit`, source line 120. -/
def default_nc_witnesses : List NcWitness :=
  [{ name := some "________________", address := some "________________" },
   { name := some "________________", address := some "________________" }]

/-- `generate_name_change_affidavit`, source lines 105-159. -/
def generate_name_change_affidavit
    (deponent_name father_name : String) (husband_name : Option String)
    (age residence maiden_name present_name marriage_date marriage_place : String)
    (marriage_certificate_no aadhar_number pan_number : Option String)
    (witnesses : Option (List NcWitness)) : String :=
  let witnesses := pyOrList witnesses default_nc_witnesses
  let header := center_ ("AFFIDAVIT FOR CHANGE OF NAME AFTER MARRIAGE") 80 ++ "\n\n"
  let witness_text := String.join (witnesses.enum.map (fun iw =>
    toString (iw.1 + 1) ++ ". Name: " ++ pyStrOfGet iw.2.name ++ "   Address: " ++
    pyStrOfGet iw.2.address ++ "   Signature: __________________\n"))
  let body :=
    "I, " ++ deponent_name ++ ", daughter of " ++ father_name ++ ", and wife of " ++ (pyOrStr husband_name ("N/A")) ++
    ", aged " ++ age ++ " years, residing at " ++ residence ++
    ", do hereby solemnly affirm and declare as under:\n\n1. That my maiden name is: " ++ maiden_name ++
    ".\n\n2. That I got married to " ++ (pyOrStr husband_name ("N/A")) ++ " on " ++ marriage_date ++ " at " ++
    marriage_place ++ ", and my Marriage Certificate number is " ++ (pyOrStr marriage_certificate_no ("N/A")) ++
    ".\n\n3. That after my marriage, my name is changed to: " ++ present_name ++
    ".\n\n4. That my AADHAAR Number is: " ++ (pyOrStr aadhar_number ("N/A")) ++ ".\n\n5. That my PAN Number is: " ++
    (pyOrStr pan_number ("N/A")) ++ ".\n\n6. That the names " ++ maiden_name ++ " and " ++ present_name ++
    " refer to one and the same person (myself).\n\n7. That I am executing this affidavit to be produced before the concerned authorities for the purpose of changing/updating my name in their records.\n\nDEPONENT:\nName: " ++
    deponent_name ++
    "\nSignature: _______________________\n\n( Affix passport size photograph & get it attested by Notary )\n\nWITNESSES:\n" ++
    witness_text ++ "\n\nVERIFICATION\n\n" ++ "Verified at " ++
    (if pyInStr ',' residence then ((pySplit ',' residence).headD "") else residence) ++ " on this" ++
    " ___ day of ____________, 20__ that the contents of this affidavit are true and correct to my knowledge and belief.\n\nSignature of Deponent: _______________________\nName: " ++
    deponent_name ++ "\n"
  header ++ body

/-- A beneficiary entry of the will: a Python dict where the name is read
with the raising access `b[...]` and the relation with dict.get. -/
structure Beneficiary where
  name : Option String
  relation : Option String

/-- The default asset list of `generate_will`, source lines 176-180. -/
def default_assets : List String :=
  ["One Flat No. ___ situated at ____________________________.",
   "Jewellery and ornaments.",
   "Bank balances, deposits and investments."]

/-- The list comprehension building `beneficiaries_text` in `generate_will`:
reading the name key of a dict that lacks it raises KeyError (elements are
evaluated left to right); a missing relation key falls back to the empty
string via dict.get. -/
def beneficiaryLines : List Beneficiary → Except String (List String)
  | [] => Except.ok []
  | b :: bs =>
    match b.name with
    | none => Except.error ("KeyError: \x27name\x27")
    | some n =>
      match beneficiaryLines bs with
      | Except.ok rest =>
          Except.ok ((" - " ++ n ++ " (Relationship: " ++ b.relation.getD "" ++ ")") :: rest)
      | Except.error e => Except.error e

/-- `generate_will`, source lines 163-209. -/
def generate_will
    (testator_name relation_to_parent age residence executor_name : String)
    (beneficiaries : List Beneficiary) (assets : Option (List String))
    (date_day date_month year place : String) : Except String String :=
  let assets := pyOrList assets default_assets
  match beneficiaryLines beneficiaries with
  | Except.error e => Except.error e
  | Except.ok blines =>
    let beneficiaries_text := pyJoin ("\n") blines
    let assets_text := pyJoin ("\n") (assets.map (fun a => " - " ++ a))
    let header := center_ ("LAST WILL AND TESTAMENT") 80 ++ "\n\n"
    let body :=
      "I, " ++ testator_name ++ ", " ++ relation_to_parent ++ ", aged " ++ age ++ ", residing at " ++ residence ++
      ", hereby revoke all former Wills and declare this to be my last Will and Testament.\n\n1. I appoint " ++
      executor_name ++
      " as the Executor of this my Will.\n\n2. I declare that I am of sound mind and make this Will of my own free will.\n\n3. My assets are as follows:\n" ++
      assets_text ++
      "\n\n4. I hereby give, devise and bequeath all my assets described above to the following " ++
      "beneficiary(ies):\n" ++ beneficiaries_text ++ "\n\n5. All debts" ++
      ", funeral and testamentary expenses shall be paid out of my estate.\n\nIN WITNESS WHEREOF I have set my hand this " ++
      date_day ++ " day of " ++ date_month ++ ", " ++ year ++ " at " ++ place ++ ".\n\nSigned: " ++ testator_name ++
      "\nSignature: _______________________\n\nWITNESSES:\n1. Name: __________________  Address: __________________  Signature: __________________\n2. Name: __________________  Address: __________________  Signature: __________________\n"
    Except.ok (header ++ body)

/-- The default restriction clause of `generate_power_of_attorney`, source line 224. -/
def default_not_allowed : String :=
  "The attorney shall not sell or transfer the ownership of the property without the prior written consent of the Grantor."

/-- `generate_power_of_attorney` (General Power of Attorney), source lines 213-246. -/
def generate_power_of_attorney
    (grantor_name grantor_address agent_name agent_address : String)
    (scope_of_powers : List String) (not_allowed_clause : Option String)
    (date_signed : String) : String :=
  let header := center_ ("POWER OF ATTORNEY") 80 ++ "\n\n"
  let powers_text := pyJoin ("\n") (scope_of_powers.enum.map (fun ip => toString (ip.1 + 1) ++ ". " ++ ip.2))
  let not_allowed := pyOrStr not_allowed_clause default_not_allowed
  let body :=
    "KNOW ALL MEN BY THESE PRESENTS that I, " ++ grantor_name ++ ", resident of " ++ grantor_address ++
    ", do hereby nominate and appoint " ++ agent_name ++ ", resident of " ++ agent_address ++
    ", to be my true and lawful Attorney to do the following acts, deeds and things on my behalf:\n\n" ++
    powers_text ++ "\n\n" ++ not_allowed ++ "\n\nThis Power of Attorney is executed voluntarily on this day " ++
    date_signed ++ ".\n\nEXECUTANT:\nName: " ++ grantor_name ++
    "\nSignature: _______________________\n\nATTORNEY:\nName: " ++ agent_name ++
    "\nSignature: _______________________\n\nWITNESSES:\n1. Name: __________________  Signature: __________________  Address: __________________\n2. Name: __________________  Signature: __________________  Address: __________________\n"
  header ++ body

/-- The default specific powers of `generate_special_power_of_attorney`, source lines 260-265. -/
def default_spa_powers : List String :=
  ["To negotiate terms and execute the Sale Deed.",
   "To present the Sale Deed before the Sub-Registrar for registration.",
   "To declare the consideration and pay stamp duty and registration fees.",
   "To obtain the registered document and sign all receipts."]

/-- `generate_special_power_of_attorney`, source lines 250-292. -/
def generate_special_power_of_attorney
    (grantor_name grantor_address agent_name agent_address property_description : String)
    (specific_powers : Option (List String)) (date_signed : String) : String :=
  let header :=
    center_ ("SPECIAL POWER OF ATTORNEY TO EXECUTE SALE DEED AND PRESENT FOR REGISTRATION") 80 ++ "\n\n"
  let specific_powers := pyOrList specific_powers default_spa_powers
  let powers_text := pyJoin ("\n") (specific_powers.enum.map (fun ip => toString (ip.1 + 1) ++ ". " ++ ip.2))
  let body :=
    "KNOW ALL MEN BY THESE PRESENTS that I, " ++ grantor_name ++ ", of " ++ grantor_address ++
    ", do hereby appoint " ++ agent_name ++ ", of " ++ agent_address ++
    ", to be my true and lawful attorney for the specific purpose of executing the sale deed and completing registration formalities in respect of the property described below:\n\nPROPERTY DESCRIPTION:\n" ++
    property_description ++ "\n\nPOWERS:\n" ++ powers_text ++
    "\n\nIN WITNESS WHEREOF I have signed this Special Power of Attorney on this day " ++ date_signed ++
    ".\n\nEXECUTANT:\nName: " ++ grantor_name ++ "\nSignature: _______________________\nAddress: " ++
    grantor_address ++ "\n\nATTORNEY:\nName: " ++ agent_name ++ "\nSignature: _______________________\nAddress: " ++
    agent_address ++
    "\n\nWITNESSES:\n1. Name: __________________  Signature: __________________  Address: __________________\n2. Name: __________________  Signature: __________________  Address: __________________\n"
  header ++ body

/-- `generate_vakalatnama`, source lines 296-326. -/
def generate_vakalatnama
    (principal_name advocate_name court_name case_title role : String)
    (enrolment_no : Option String) (date_signed place : String) : String :=
  let header := center_ ("VAKALATNAMA") 80 ++ "\n\n"
  let body :=
    "BEFORE THE " ++ pyUpper court_name ++ "\n\nCase / Matter: " ++ case_title ++ "\nRole: " ++ role ++
    "\n\n" ++ "I/We, " ++ principal_name ++ ", do hereby appoint and retain " ++ advocate_name ++ " (Enrollment No.: " ++
    (pyOrStr enrolment_no ("N/A")) ++
    ") to be my/our Advocate in the above matter and authorize the Advocate to appear, represent, sign, file, verify, withdraw, compromise and do all acts necessary in relation thereto.\n\nSignature of Principal: _______________________\nName: " ++
    principal_name ++ "\n\nAdvocate:\nName: " ++ advocate_name ++ "\nEnrollment No.: " ++
    (pyOrStr enrolment_no ("N/A")) ++ "\nSignature: _______________________\n\nDate: " ++ date_signed ++
    "\nPlace: " ++ place ++ "\n"
  header ++ body

/-- `generate_tenancy_lease`, source lines 330-380. -/
def generate_tenancy_lease
    (lessor_name lessor_address lessee_name lessee_address property_address
     rent_amount_in_rs lease_commencement_date : String)
    (lease_duration_months : Nat) (security_deposit_in_rs : Option String)
    (notice_period_days : Nat) : String :=
  let header := center_ ("LEASE OF A HOUSE ON MONTHLY TENANCY") 80 ++ "\n\n"
  let security_text :=
    match security_deposit_in_rs with
    | some s => if s = "" then "Security deposit: Not specified." else "Security deposit: Rs. " ++ s ++ "."
    | none => "Security deposit: Not specified."
  let body :=
    "THIS AGREEMENT OF LEASE is made on this " ++ lease_commencement_date ++ " between:\n\nLESSOR: " ++ lessor_name ++
    ", residing at " ++ lessor_address ++ " (hereinafter called the \x27Lessor\x27);\n\nAND\n\nLESSEE: " ++
    lessee_name ++ ", residing at " ++ lessee_address ++
    " (hereinafter called the \x27Lessee\x27).\n\n1. PROPERTY: The Lessor lets and the Lessee takes on lease the house/property known as: " ++
    property_address ++ ".\n\n2. TERM: The lease shall commence on " ++ lease_commencement_date ++
    " for a period of " ++ toString lease_duration_months ++ " months.\n\n3. RENT: The rent shall be Rs. " ++
    rent_amount_in_rs ++ " per month payable in advance on or before the 1st day of each month.\n\n4. SECURITY: " ++
    security_text ++
    "\n\n5. USE: The Lessee shall use the premises for residential purposes only and shall not sublet the premises without the written consent of the Lessor.\n\n6. MAINTENANCE & REPAIRS: The Lessee shall keep the premises in good repair. Structural repairs shall be the responsibility of the Lessor.\n\n7. UTILITIES: The Lessee shall pay electricity, water and other utilities unless otherwise agreed in writing.\n\n8. TERMINATION: Either party may terminate by giving " ++
    toString notice_period_days ++
    " days written notice to the other party.\n\n9. POSSESSION: The Lessee shall deliver peaceful and vacant possession upon termination.\n\nIN WITNESS WHEREOF the parties have executed this Lease on " ++
    lease_commencement_date ++ ".\n\nLESSOR: " ++ lessor_name ++ "            LESSEE: " ++ lessee_name ++
    "\nSignature: __________________     Signature: __________________\n\nWITNESSES:\n1. Name: __________________  Signature: __________________  Address: __________________\n2. Name: __________________  Signature: __________________  Address: __________________\n"
  header ++ body

/-- Keep the names of the parameters a caller left as `none`. -/
def missingNames (l : List (String × Bool)) : List String :=
  (l.filter (fun p => p.2)).map (fun p => p.1)

/-- The TypeError Python raises, before the body runs, when required
positional arguments are missing; it names every missing parameter. -/
def pyTypeError (fn : String) (ms : List String) : String :=
  "TypeError: " ++ fn ++ "() missing required positional arguments: " ++ pyJoin (", ") ms

/-- A call of `generate_affidavit` with keyword arguments; `none` means the
caller omitted the argument. -/
structure AffidavitCall where
  court_name : Option String
  court_place : Option String
  petition_no : Option String
  year : Option String
  petitioner : Option String
  respondent : Option String
  deponent_name : Option String
  deponent_age : Option String
  father_or_husband_name : Option String
  residence : Option String
  paragraphs_true_up_to : Option Nat
  annexures_range : Option String
  verification_place : Option String
  verification_day : Option String
  verification_month : Option String

/-- The required parameters of `generate_affidavit` the call omits, in
parameter order. -/
def affidavitMissing (a : AffidavitCall) : List String :=
  missingNames [("court_name", a.court_name.isNone), ("court_place", a.court_place.isNone),
    ("petition_no", a.petition_no.isNone), ("year", a.year.isNone),
    ("petitioner", a.petitioner.isNone), ("respondent", a.respondent.isNone),
    ("deponent_name", a.deponent_name.isNone), ("deponent_age", a.deponent_age.isNone),
    ("father_or_husband_name", a.father_or_husband_name.isNone), ("residence", a.residence.isNone)]

/-- Calling `generate_affidavit`: a missing required positional argument is a
TypeError raised before the body runs; otherwise the body runs with the
declared defaults filling the omitted optional parameters. -/
def call_generate_affidavit (a : AffidavitCall) : Except String String :=
  match affidavitMissing a with
  | [] => Except.ok (generate_affidavit (a.court_name.getD "") (a.court_place.getD "")
      (a.petition_no.getD "") (a.year.getD "") (a.petitioner.getD "") (a.respondent.getD "")
      (a.deponent_name.getD "") (a.deponent_age.getD "") (a.father_or_husband_name.getD "")
      (a.residence.getD "") (a.paragraphs_true_up_to.getD 20) (a.annexures_range.getD ("A to T"))
      (a.verification_place.getD "") (a.verification_day.getD "") (a.verification_month.getD ""))
  | ms => Except.error (pyTypeError ("generate_affidavit") ms)

/-- A call of `generate_name_change_affidavit` with keyword arguments.  The
parameters typed `Optional[str]` without a default are still required
positional parameters: the outer `Option` is presence of the argument, the
inner one its possibly-None value. -/
structure NameChangeCall where
  deponent_name : Option String
  father_name : Option String
  husband_name : Option (Option String)
  age : Option String
  residence : Option String
  maiden_name : Option String
  present_name : Option String
  marriage_date : Option String
  marriage_place : Option String
  marriage_certificate_no : Option (Option String)
  aadhar_number : Option (Option String)
  pan_number : Option (Option String)
  witnesses : Option (Option (List NcWitness))

/-- The required parameters of `generate_name_change_affidavit` the call
omits, in parameter order. -/
def nameChangeMissing (a : NameChangeCall) : List String :=
  missingNames [("deponent_name", a.deponent_name.isNone), ("father_name", a.father_name.isNone),
    ("husband_name", a.husband_name.isNone), ("age", a.age.isNone),
    ("residence", a.residence.isNone), ("maiden_name", a.maiden_name.isNone),
    ("present_name", a.present_name.isNone), ("marriage_date", a.marriage_date.isNone),
    ("marriage_place", a.marriage_place.isNone),
    ("marriage_certificate_no", a.marriage_certificate_no.isNone),
    ("aadhar_number", a.aadhar_number.isNone), ("pan_number", a.pan_number.isNone)]

/-- Calling `generate_name_change_affidavit` with keyword arguments. -/
def call_generate_name_change_affidavit (a : NameChangeCall) : Except String String :=
  match nameChangeMissing a with
  | [] => Except.ok (generate_name_change_affidavit (a.deponent_name.getD "")
      (a.father_name.getD "") (a.husband_name.getD none) (a.age.getD "") (a.residence.getD "")
      (a.maiden_name.getD "") (a.present_name.getD "") (a.marriage_date.getD "")
      (a.marriage_place.getD "") (a.marriage_certificate_no.getD none)
      (a.aadhar_number.getD none) (a.pan_number.getD none) (a.witnesses.getD none))
  | ms => Except.error (pyTypeError ("generate_name_change_affidavit") ms)

/-- A call of `generate_will` with keyword arguments. -/
structure WillCall where
  testator_name : Option String
  relation_to_parent : Option String
  age : Option String
  residence : Option String
  executor_name : Option String
  beneficiaries : Option (List Beneficiary)
  assets : Option (Option (List String))
  date_day : Option String
  date_month : Option String
  year : Option String
  place : Option String

/-- The required parameters of `generate_will` the call omits, in parameter order. -/
def willMissing (a : WillCall) : List String :=
  missingNames [("testator_name", a.testator_name.isNone),
    ("relation_to_parent", a.relation_to_parent.isNone), ("age", a.age.isNone),
    ("residence", a.residence.isNone), ("executor_name", a.executor_name.isNone),
    ("beneficiaries", a.beneficiaries.isNone)]

/-- Calling `generate_will` with keyword arguments. -/
def call_generate_will (a : WillCall) : Except String String :=
  match willMissing a with
  | [] => generate_will (a.testator_name.getD "") (a.relation_to_parent.getD "")
      (a.age.getD "") (a.residence.getD "") (a.executor_name.getD "")
      (a.beneficiaries.getD []) (a.assets.getD none) (a.date_day.getD ("___"))
      (a.date_month.getD ("________")) (a.year.getD ("20__")) (a.place.getD ("________"))
  | ms => Except.error (pyTypeError ("generate_will") ms)

/-- A call of `generate_power_of_attorney` with keyword arguments. -/
structure PoaCall where
  grantor_name : Option String
  grantor_address : Option String
  agent_name : Option String
  agent_address : Option String
  scope_of_powers : Option (List String)
  not_allowed_clause : Option (Option String)
  date_signed : Option String

/-- The required parameters of `generate_power_of_attorney` the call omits,
in parameter order. -/
def poaMissing (a : PoaCall) : List String :=
  missingNames [("grantor_name", a.grantor_name.isNone),
    ("grantor_address", a.grantor_address.isNone), ("agent_name", a.agent_name.isNone),
    ("agent_address", a.agent_address.isNone), ("scope_of_powers", a.scope_of_powers.isNone)]

/-- Calling `generate_power_of_attorney` with keyword arguments. -/
def call_generate_power_of_attorney (a : PoaCall) : Except String String :=
  match poaMissing a with
  | [] => Except.ok (generate_power_of_attorney (a.grantor_name.getD "")
      (a.grantor_address.getD "") (a.agent_name.getD "") (a.agent_address.getD "")
      (a.scope_of_powers.getD []) (a.not_allowed_clause.getD none) (a.date_signed.getD ("________")))
  | ms => Except.error (pyTypeError ("generate_power_of_attorney") ms)

/-- A call of `generate_special_power_of_attorney` with keyword arguments. -/
structure SpaCall where
  grantor_name : Option String
  grantor_address : Option String
  agent_name : Option String
  agent_address : Option String
  property_description : Option String
  specific_powers : Option (Option (List String))
  date_signed : Option String

/-- The required parameters of `generate_special_power_of_attorney` the call
omits, in parameter order. -/
def spaMissing (a : SpaCall) : List String :=
  missingNames [("grantor_name", a.grantor_name.isNone),
    ("grantor_address", a.grantor_address.isNone), ("agent_name", a.agent_name.isNone),
    ("agent_address", a.agent_address.isNone),
    ("property_description", a.property_description.isNone)]

/-- Calling `generate_special_power_of_attorney` with keyword arguments. -/
def call_generate_special_power_of_attorney (a : SpaCall) : Except String String :=
  match spaMissing a with
  | [] => Except.ok (generate_special_power_of_attorney (a.grantor_name.getD "")
      (a.grantor_address.getD "") (a.agent_name.getD "") (a.agent_address.getD "")
      (a.property_description.getD "") (a.specific_powers.getD none) (a.date_signed.getD ("________")))
  | ms => Except.error (pyTypeError ("generate_special_power_of_attorney") ms)

/-- A call of `generate_vakalatnama` with keyword arguments. -/
structure VakalatnamaCall where
  principal_name : Option String
  advocate_name : Option String
  court_name : Option String
  case_title : Option String
  role : Option String
  enrolment_no : Option (Option String)
  date_signed : Option String
  place : Option String

/-- The required parameters of `generate_vakalatnama` the call omits, in
parameter order. -/
def vakalatnamaMissing (a : VakalatnamaCall) : List String :=
  missingNames [("principal_name", a.principal_name.isNone),
    ("advocate_name", a.advocate_name.isNone), ("court_name", a.court_name.isNone),
    ("case_title", a.case_title.isNone), ("role", a.role.isNone)]

/-- Calling `generate_vakalatnama` with keyword arguments. -/
def call_generate_vakalatnama (a : VakalatnamaCall) : Except String String :=
  match vakalatnamaMissing a with
  | [] => Except.ok (generate_vakalatnama (a.principal_name.getD "") (a.advocate_name.getD "")
      (a.court_name.getD "") (a.case_title.getD "") (a.role.getD "")
      (a.enrolment_no.getD none) (a.date_signed.getD ("________")) (a.place.getD ("________")))
  | ms => Except.error (pyTypeError ("generate_vakalatnama") ms)

/-- A call of `generate_tenancy_lease` with keyword arguments. -/
structure LeaseCall where
  lessor_name : Option String
  lessor_address : Option String
  lessee_name : Option String
  lessee_address : Option String
  property_address : Option String
  rent_amount_in_rs : Option String
  lease_commencement_date : Option String
  lease_duration_months : Option Nat
  security_deposit_in_rs : Option (Option String)
  notice_period_days : Option Nat

/-- The required parameters of `generate_tenancy_lease` the call omits, in
parameter order. -/
def leaseMissing (a : LeaseCall) : List String :=
  missingNames [("lessor_name", a.lessor_name.isNone),
    ("lessor_address", a.lessor_address.isNone), ("lessee_name", a.lessee_name.isNone),
    ("lessee_address", a.lessee_address.isNone),
    ("property_address", a.property_address.isNone),
    ("rent_amount_in_rs", a.rent_amount_in_rs.isNone),
    ("lease_commencement_date", a.lease_commencement_date.isNone),
    ("lease_duration_months", a.lease_duration_months.isNone)]

/-- Calling `generate_tenancy_lease` with keyword arguments. -/
def call_generate_tenancy_lease (a : LeaseCall) : Except String String :=
  match leaseMissing a with
  | [] => Except.ok (generate_tenancy_lease (a.lessor_name.getD "") (a.lessor_address.getD "")
      (a.lessee_name.getD "") (a.lessee_address.getD "") (a.property_address.getD "")
      (a.rent_amount_in_rs.getD "") (a.lease_commencement_date.getD "")
      (a.lease_duration_months.getD 0) (a.security_deposit_in_rs.getD none)
      (a.notice_period_days.getD 30))
  | ms => Except.error (pyTypeError ("generate_tenancy_lease") ms)

/-- A string of `n` spaces (for stating what the centering helper produces). -/
def spaces (n : Nat) : String :=
  String.mk (List.replicate n ' ')

/-- A beneficiary dict that carries both keys (for stating list-level facts
about the will generator). -/
def mkBeneficiary (q : String × String) : Beneficiary :=
  { name := some q.1, relation := some q.2 }

/-- The rendered bullet line of a beneficiary whose dict carries both keys. -/
def beneficiaryBullet (q : String × String) : String :=
  " - " ++ q.1 ++ " (Relationship: " ++ q.2 ++ ")"

/-- The end-to-end Writ Affidavit example of the specification: all required
fields plus the three verification fields; the optional `paragraphs_true_up_to`
and `annexures_range` keep their declared defaults. -/
def specAffidavitExample : String :=
  generate_affidavit ("Madhya Pradesh") ("Jabalpur") ("123/2025") ("2025") ("Mani Chourasiya")
    ("State of Madhya Pradesh") ("Mani Chourasiya") ("28 years") ("Ramesh Chourasiya")
    ("24, Shanti Nagar, Indore, Madhya Pradesh") 20 ("A to T") ("Indore") ("19") ("November")

/-- The same Writ Affidavit call, but with the optional `annexures_range`
supplied as the empty string instead of omitted. -/
def affidavitEmptyAnnexures : String :=
  generate_affidavit ("Madhya Pradesh") ("Jabalpur") ("123/2025") ("2025") ("Mani Chourasiya")
    ("State of Madhya Pradesh") ("Mani Chourasiya") ("28 years") ("Ramesh Chourasiya")
    ("24, Shanti Nagar, Indore, Madhya Pradesh") 20 ("") ("Indore") ("19") ("November")

/-- A call of `generate_affidavit` that supplies every required parameter but
leaves `court_name` as the empty string. -/
def affidavitCallEmptyCourt : AffidavitCall :=
  { court_name := some "", court_place := some "Jabalpur", petition_no := some "123/2025",
    year := some "2025", petitioner := some "P", respondent := some "R",
    deponent_name := some "D", deponent_age := some "30",
    father_or_husband_name := some "F", residence := some "X",
    paragraphs_true_up_to := none, annexures_range := none, verification_place := none,
    verification_day := none, verification_month := none }

/-- A call of `generate_affidavit` that omits only `court_name`. -/
def affidavitCallNoCourt : AffidavitCall :=
  { court_name := none, court_place := some "Jabalpur", petition_no := some "123/2025",
    year := some "2025", petitioner := some "P", respondent := some "R",
    deponent_name := some "D", deponent_age := some "30",
    father_or_husband_name := some "F", residence := some "X",
    paragraphs_true_up_to := none, annexures_range := none, verification_place := none,
    verification_day := none, verification_month := none }

end Legal

namespace Legal

/-! ### General lemmas about substring occurrence and the helpers -/

theorem occursIn_append_left {p s : String} (t : String) (h : occursIn p s) :
    occursIn p (t ++ s) := by
  obtain ⟨a, b, rfl⟩ := h
  exact ⟨t ++ a, b, by simp only [String.append_assoc]⟩

theorem occursIn_append_right {p s : String} (t : String) (h : occursIn p s) :
    occursIn p (s ++ t) := by
  obtain ⟨a, b, rfl⟩ := h
  exact ⟨a, b ++ t, by simp only [String.append_assoc]⟩

theorem occursIn_self (p : String) : occursIn p p :=
  ⟨"", "", by simp only [String.empty_append, String.append_empty]⟩

theorem occursIn_at1 (p t : String) : occursIn p (p ++ t) :=
  ⟨"", t, by simp only [String.empty_append]⟩

theorem occursIn_at2 (p1 p2 t : String) : occursIn (p1 ++ p2) (p1 ++ (p2 ++ t)) :=
  ⟨"", t, by simp only [String.empty_append, String.append_assoc]⟩

theorem occursIn_at3 (p1 p2 p3 t : String) :
    occursIn (p1 ++ (p2 ++ p3)) (p1 ++ (p2 ++ (p3 ++ t))) :=
  ⟨"", t, by simp only [String.empty_append, String.append_assoc]⟩

theorem occursIn_at4 (p1 p2 p3 p4 t : String) :
    occursIn (p1 ++ (p2 ++ (p3 ++ p4))) (p1 ++ (p2 ++ (p3 ++ (p4 ++ t)))) :=
  ⟨"", t, by simp only [String.empty_append, String.append_assoc]⟩

theorem occursIn_pyJoin {p x : String} (sep : String) :
    ∀ (l : List String), x ∈ l → occursIn p x → occursIn p (pyJoin sep l) := by
  intro l
  induction l with
  | nil => intro hx _; exact absurd hx (List.not_mem_nil x)
  | cons y ys ih =>
    intro hx h
    rcases List.mem_cons.mp hx with rfl | hmem
    · cases ys with
      | nil => simpa [pyJoin] using h
      | cons z zs =>
        simp only [pyJoin]
        exact occursIn_append_right _ (occursIn_append_right _ h)
    · cases ys with
      | nil => exact absurd hmem (List.not_mem_nil x)
      | cons z zs =>
        simp only [pyJoin]
        exact occursIn_append_left _ (ih hmem h)

theorem occursIn_pyTypeError {f : String} {ms : List String} (fn : String) (hf : f ∈ ms) :
    occursIn f (pyTypeError fn ms) := by
  unfold pyTypeError
  exact occursIn_append_left _ (occursIn_pyJoin _ ms hf (occursIn_self f))

theorem spaces_length (n : Nat) : (spaces n).length = n := by
  simp [spaces, String.length]

theorem numbered_enumFrom_eq : ∀ (s : Nat) (ps : List String),
    (List.enumFrom s ps).map (fun ip => toString (ip.1 + 1) ++ ". " ++ ip.2) =
      List.zipWith (fun i p => toString i ++ ". " ++ p) (List.range' (s + 1) ps.length) ps := by
  intro s ps
  induction ps generalizing s with
  | nil => simp [List.range']
  | cons a as ih =>
    simp [List.enumFrom_cons, List.range', ih]

theorem numbered_enum_eq (ps : List String) :
    ps.enum.map (fun ip => toString (ip.1 + 1) ++ ". " ++ ip.2) =
      List.zipWith (fun i p => toString i ++ ". " ++ p) (List.range' 1 ps.length) ps :=
  numbered_enumFrom_eq 0 ps

theorem beneficiaryLines_append (bs : List (String × String)) (l : List Beneficiary) :
    beneficiaryLines (bs.map mkBeneficiary ++ l) =
      match beneficiaryLines l with
      | Except.ok r => Except.ok (bs.map beneficiaryBullet ++ r)
      | Except.error e => Except.error e := by
  induction bs with
  | nil =>
    simp only [List.map_nil, List.nil_append]
    cases beneficiaryLines l <;> simp
  | cons q qs ih =>
    simp only [List.map_cons, List.cons_append, beneficiaryLines, mkBeneficiary, List.append_eq]
    rw [ih]
    cases beneficiaryLines l <;> simp [beneficiaryBullet]

theorem beneficiaryLines_map (bs : List (String × String)) :
    beneficiaryLines (bs.map mkBeneficiary) = Except.ok (bs.map beneficiaryBullet) := by
  have h := beneficiaryLines_append bs []
  simpa [beneficiaryLines] using h

/-! ### C4: the centering helper -/

/-- C4 counterexample: centering "ab" in width 5 leaves an odd margin of 3,
and the extra space goes to the LEFT (two leading, one trailing), not to the
right as the claim states. -/
theorem claim4_center_counterexample :
    center_ ("ab") 5 = "  ab " ∧ center_ ("ab") 5 ≠ " ab  " := by
  constructor <;> decide

/-- C4 (amended): center_text pads the text to the requested width with
near-equal margins and returns it unchanged when it is at least as wide; the
extra space of an odd margin goes to the right when the width is even (as
with the default width 80), and to the left when the width is odd. -/
theorem claim4_center_amended :
    (∀ (s : String) (w : Nat), w ≤ s.length → center_ s w = s) ∧
    (∀ (s : String) (w : Nat), s.length < w →
      ∃ l r, center_ s w = spaces l ++ s ++ spaces r ∧
        l + s.length + r = w ∧ (center_ s w).length = w ∧
        (l ≤ r + 1 ∧ r ≤ l + 1) ∧
        ((w - s.length) % 2 = 0 → l = r) ∧
        ((w - s.length) % 2 = 1 → w % 2 = 0 → r = l + 1) ∧
        ((w - s.length) % 2 = 1 → w % 2 = 1 → l = r + 1)) := by
  constructor
  · intro s w h
    simp only [center_, pyCenter]
    rw [if_pos h]
  · intro s w h
    have hne : ¬ s.length ≥ w := by omega
    have heq : center_ s w =
        spaces ((w - s.length) / 2 + (if (w - s.length) % 2 = 1 ∧ w % 2 = 1 then 1 else 0)) ++ s ++
          spaces ((w - s.length) -
            ((w - s.length) / 2 + (if (w - s.length) % 2 = 1 ∧ w % 2 = 1 then 1 else 0))) := by
      simp only [center_, pyCenter, spaces]
      rw [if_neg hne]
    refine ⟨_, _, heq, ?_, ?_, ?_, ?_, ?_, ?_⟩
    · by_cases hc : (w - s.length) % 2 = 1 ∧ w % 2 = 1 <;> simp [hc] <;> omega
    · rw [heq]
      simp only [String.length_append, spaces_length]
      by_cases hc : (w - s.length) % 2 = 1 ∧ w % 2 = 1 <;> simp [hc] <;> omega
    · by_cases hc : (w - s.length) % 2 = 1 ∧ w % 2 = 1 <;> simp [hc] <;> omega
    · by_cases hc : (w - s.length) % 2 = 1 ∧ w % 2 = 1 <;> simp [hc] <;> omega
    · by_cases hc : (w - s.length) % 2 = 1 ∧ w % 2 = 1 <;> simp [hc] <;> omega
    · by_cases hc : (w - s.length) % 2 = 1 ∧ w % 2 = 1 <;> simp [hc] <;> omega

/-- Witness for the amended C4 theorem at concrete inputs. -/
theorem claim4_center_witness : center_ ("abc") 2 = "abc" :=
  claim4_center_amended.1 ("abc") 2 (by decide)

end Legal

namespace Legal

/-! ### C5: the end-to-end Writ Affidavit example of the specification -/

set_option maxRecDepth 100000 in
set_option maxHeartbeats 2000000 in
/-- C5: the specification example call produces text containing the centered
petition line (on its own line) and the verification sentence. -/
theorem claim5_spec_example :
    strHas specAffidavitExample ("\n" ++ center_ ("WRIT PETITION NO. 123/2025 OF 2025") 80 ++ "\n") = true ∧
    strHas specAffidavitExample ("Verified at Indore on this 19 day of November, 2025.") = true := by
  constructor
  · decide
  · decide

/-! ### C6: numbering of the powers list in the General Power of Attorney -/

/-- C6: for any scope-of-powers list, the General Power of Attorney renders
the power clauses in caller order, numbered consecutively 1..N: the rendered
text contains the block of clauses paired, in order, with the number list
`List.range' 1 N` (which is exactly 1, 2, ..., N with no gaps or repeats). -/
theorem claim6_poa_numbering
    (grantor_name grantor_address agent_name agent_address : String)
    (scope_of_powers : List String) (not_allowed_clause : Option String) (date_signed : String) :
    occursIn
      (pyJoin ("\n") (List.zipWith (fun i p => toString i ++ ". " ++ p)
        (List.range' 1 scope_of_powers.length) scope_of_powers))
      (generate_power_of_attorney grantor_name grantor_address agent_name agent_address
        scope_of_powers not_allowed_clause date_signed) := by
  simp only [generate_power_of_attorney, numbered_enum_eq]
  simp only [String.append_assoc]
  repeat first
    | exact occursIn_at1 _ _
    | apply occursIn_append_left

/-! ### C7: beneficiary list ordering in the Will -/

/-- C7: for any beneficiary list, the rendered Will contains, right after the
bequest clause, one bullet line per beneficiary, in exactly the caller-supplied
order (duplicates included), the block being followed by clause 5. -/
theorem claim7_will_beneficiary_order
    (testator_name relation_to_parent age residence executor_name : String)
    (bs : List (String × String)) (assets : Option (List String))
    (date_day date_month year place : String) :
    ∃ doc,
      generate_will testator_name relation_to_parent age residence executor_name
        (bs.map mkBeneficiary) assets date_day date_month year place = Except.ok doc ∧
      occursIn ("beneficiary(ies):\n" ++
        (pyJoin ("\n") (bs.map beneficiaryBullet) ++ "\n\n5. All debts")) doc := by
  simp only [generate_will, beneficiaryLines_map]
  refine ⟨_, rfl, ?_⟩
  simp only [String.append_assoc]
  repeat first
    | exact occursIn_at3 _ _ _ _
    | apply occursIn_append_left

end Legal

namespace Legal

/-! ### C3: default substitution for optional fields -/

set_option maxRecDepth 100000 in
set_option maxHeartbeats 2000000 in
/-- C3 counterexample: supplying the optional `annexures_range` as the empty
string (rather than omitting it) does NOT substitute its declared default
"A to T" — the empty string is interpolated as-is, so the default text is
absent from the output. -/
theorem claim3_counterexample :
    strHas affidavitEmptyAnnexures ("A to T") = false := by
  decide

/-- C3 (amended): optional fields read through Python truthiness (such as
`security_deposit_in_rs`) substitute their documented default both when
omitted and when supplied empty; optional fields with a plain declared
default (such as `annexures_range`) are interpolated verbatim, so the default
appears only when the field is omitted. -/
theorem claim3_default_substitution_amended :
    (∀ (lessor_name lessor_address lessee_name lessee_address property_address
        rent_amount_in_rs lease_commencement_date : String)
       (lease_duration_months notice_period_days : Nat),
      occursIn ("Security deposit: Not specified.")
        (generate_tenancy_lease lessor_name lessor_address lessee_name lessee_address
          property_address rent_amount_in_rs lease_commencement_date lease_duration_months
          none notice_period_days)) ∧
    (∀ (lessor_name lessor_address lessee_name lessee_address property_address
        rent_amount_in_rs lease_commencement_date : String)
       (lease_duration_months notice_period_days : Nat),
      occursIn ("Security deposit: Not specified.")
        (generate_tenancy_lease lessor_name lessor_address lessee_name lessee_address
          property_address rent_amount_in_rs lease_commencement_date lease_duration_months
          (some "") notice_period_days)) ∧
    (∀ (court_name court_place petition_no year petitioner respondent deponent_name
        deponent_age father_or_husband_name residence : String) (paragraphs_true_up_to : Nat)
       (annexures_range verification_place verification_day verification_month : String),
      occursIn ("4. That annexures " ++ (annexures_range ++ " to the Writ Petition"))
        (generate_affidavit court_name court_place petition_no year petitioner respondent
          deponent_name deponent_age father_or_husband_name residence paragraphs_true_up_to
          annexures_range verification_place verification_day verification_month)) := by
  refine ⟨?_, ?_, ?_⟩
  · intro lessor_name lessor_address lessee_name lessee_address property_address
      rent_amount_in_rs lease_commencement_date lease_duration_months notice_period_days
    simp only [generate_tenancy_lease]
    simp only [String.append_assoc]
    repeat first
      | exact occursIn_at1 _ _
      | apply occursIn_append_left
  · intro lessor_name lessor_address lessee_name lessee_address property_address
      rent_amount_in_rs lease_commencement_date lease_duration_months notice_period_days
    simp only [generate_tenancy_lease, if_true]
    simp only [String.append_assoc]
    repeat first
      | exact occursIn_at1 _ _
      | apply occursIn_append_left
  · intro court_name court_place petition_no year petitioner respondent deponent_name
      deponent_age father_or_husband_name residence paragraphs_true_up_to annexures_range
      verification_place verification_day verification_month
    simp only [generate_affidavit, pyJoin]
    simp only [String.append_assoc]
    repeat first
      | exact occursIn_at3 _ _ _ _
      | apply occursIn_append_left

/-! ### C8: beneficiary dict keys in the Will -/

theorem occursIn_relationship_empty (n : String) :
    occursIn (" - " ++ n ++ " (Relationship: )")
      (" - " ++ n ++ " (Relationship: " ++ "" ++ ")") := by
  refine ⟨"", "", ?_⟩
  have h : (" (Relationship: )" : String) = " (Relationship: " ++ ")" := rfl
  rw [h]
  simp only [String.empty_append, String.append_empty, String.append_assoc]

/-- C8: the will generator insists on the name key of every beneficiary dict
(a dict without it makes the whole call fail with KeyError and no text),
while a missing relation key is tolerated and rendered as the empty string. -/
theorem claim8_will_beneficiary_keys :
    (∀ (testator_name relation_to_parent age residence executor_name : String)
       (pre : List (String × String)) (rel : Option String) (rest : List Beneficiary)
       (assets : Option (List String)) (date_day date_month year place : String),
      generate_will testator_name relation_to_parent age residence executor_name
        (pre.map mkBeneficiary ++ ({ name := none, relation := rel } : Beneficiary) :: rest)
        assets date_day date_month year place = Except.error ("KeyError: \x27name\x27")) ∧
    (∀ (testator_name relation_to_parent age residence executor_name n : String)
       (pre : List (String × String)) (assets : Option (List String))
       (date_day date_month year place : String),
      ∃ doc,
        generate_will testator_name relation_to_parent age residence executor_name
          (pre.map mkBeneficiary ++ [({ name := some n, relation := none } : Beneficiary)])
          assets date_day date_month year place = Except.ok doc ∧
        occursIn (" - " ++ n ++ " (Relationship: )") doc) := by
  constructor
  · intro testator_name relation_to_parent age residence executor_name pre rel rest
      assets date_day date_month year place
    have h := beneficiaryLines_append pre (({ name := none, relation := rel } : Beneficiary) :: rest)
    simp only [beneficiaryLines] at h
    simp only [generate_will, h]
  · intro testator_name relation_to_parent age residence executor_name n pre
      assets date_day date_month year place
    have h := beneficiaryLines_append pre [({ name := some n, relation := none } : Beneficiary)]
    simp only [beneficiaryLines, Option.getD_none] at h
    simp only [generate_will, h]
    refine ⟨_, rfl, ?_⟩
    have hx : occursIn (" - " ++ n ++ " (Relationship: )")
        (pyJoin ("\n") (pre.map beneficiaryBullet ++ [" - " ++ n ++ " (Relationship: " ++ "" ++ ")"])) :=
      occursIn_pyJoin _ _ (List.mem_append_right _ (List.mem_singleton_self _))
        (occursIn_relationship_empty n)
    simp only [String.append_assoc, String.append_empty, String.empty_append] at hx ⊢
    repeat first
      | exact occursIn_append_right _ hx
      | apply occursIn_append_left

end Legal

namespace Legal

/-! ### C9: verification place of the name-change affidavit -/

theorem splitChars_ne_nil (sep : Char) : ∀ (l : List Char), splitChars sep l ≠ [] := by
  intro l
  cases l with
  | nil => simp [splitChars]
  | cons c rest =>
    simp only [splitChars]
    by_cases h : c = sep
    · simp [h]
    · simp only [if_neg h]
      cases hs : splitChars sep rest <;> simp

theorem splitChars_headD (sep : Char) : ∀ (l : List Char),
    (splitChars sep l).headD [] = l.takeWhile (fun c => c ≠ sep) := by
  intro l
  induction l with
  | nil => rfl
  | cons c rest ih =>
    simp only [splitChars, List.takeWhile]
    by_cases h : c = sep
    · subst h
      simp
    · simp only [if_neg h]
      cases hs : splitChars sep rest with
      | nil => exact absurd hs (splitChars_ne_nil sep rest)
      | cons hh tt =>
        rw [hs] at ih
        simp only [List.headD] at ih ⊢
        simp [h, ih]

theorem pySplit_headD_comma (s : String) :
    (pySplit ',' s).headD "" = beforeFirstComma s := by
  unfold pySplit beforeFirstComma
  cases hs : splitChars ',' s.data with
  | nil => exact absurd hs (splitChars_ne_nil _ _)
  | cons hh tt =>
    have h := splitChars_headD ',' s.data
    rw [hs] at h
    simp only [List.headD] at h
    simp [h]

/-- C9: the verification clause of the name-change affidavit derives its
place from the residence field: the text before the first comma when the
residence contains one, and the whole residence otherwise. -/
theorem claim9_verification_place
    (deponent_name father_name : String) (husband_name : Option String)
    (age residence maiden_name present_name marriage_date marriage_place : String)
    (marriage_certificate_no aadhar_number pan_number : Option String)
    (witnesses : Option (List NcWitness)) :
    (pyInStr ',' residence = true →
      occursIn ("Verified at " ++ (beforeFirstComma residence ++ " on this"))
        (generate_name_change_affidavit deponent_name father_name husband_name age residence
          maiden_name present_name marriage_date marriage_place marriage_certificate_no
          aadhar_number pan_number witnesses)) ∧
    (pyInStr ',' residence = false →
      occursIn ("Verified at " ++ (residence ++ " on this"))
        (generate_name_change_affidavit deponent_name father_name husband_name age residence
          maiden_name present_name marriage_date marriage_place marriage_certificate_no
          aadhar_number pan_number witnesses)) := by
  constructor
  · intro h
    simp only [generate_name_change_affidavit]
    rw [if_pos h, pySplit_headD_comma]
    simp only [String.append_assoc]
    repeat first
      | exact occursIn_at3 _ _ _ _
      | apply occursIn_append_left
  · intro h
    simp only [generate_name_change_affidavit]
    rw [if_neg (by simp [h])]
    simp only [String.append_assoc]
    repeat first
      | exact occursIn_at3 _ _ _ _
      | apply occursIn_append_left

/-- Witness for C9 at concrete inputs: a residence with a comma uses the text
before it; one without a comma is used whole. -/
theorem claim9_witness :
    occursIn ("Verified at " ++ (beforeFirstComma ("12, Civil Lines, Jabalpur, MP") ++ " on this"))
      (generate_name_change_affidavit ("Priya Sharma") ("Rajesh Sharma") (some "Amit Singh") ("28")
        ("12, Civil Lines, Jabalpur, MP") ("Priya Sharma") ("Priya Singh") ("12-02-2020") ("Indore")
        none none none none) ∧
    occursIn ("Verified at " ++ ("Indore" ++ " on this"))
      (generate_name_change_affidavit ("Priya Sharma") ("Rajesh Sharma") (some "Amit Singh") ("28")
        ("Indore") ("Priya Sharma") ("Priya Singh") ("12-02-2020") ("Indore")
        none none none none) :=
  ⟨(claim9_verification_place ("Priya Sharma") ("Rajesh Sharma") (some "Amit Singh") ("28")
      ("12, Civil Lines, Jabalpur, MP") ("Priya Sharma") ("Priya Singh") ("12-02-2020") ("Indore")
      none none none none).1 (by decide),
   (claim9_verification_place ("Priya Sharma") ("Rajesh Sharma") (some "Amit Singh") ("28")
      ("Indore") ("Priya Sharma") ("Priya Singh") ("12-02-2020") ("Indore")
      none none none none).2 (by decide)⟩

/-! ### C10: upper-casing of court headings, other fields verbatim -/

/-- C10: the Writ Affidavit heading upper-cases the court name and place and
the Vakalatnama caption upper-cases the court name, independently of the
casing supplied, while other fields (petitioner, deponent name, principal
name, case title) are interpolated with their casing unchanged. -/
theorem claim10_header_casing :
    (∀ (court_name court_place petition_no year petitioner respondent deponent_name
        deponent_age father_or_husband_name residence : String) (paragraphs_true_up_to : Nat)
       (annexures_range verification_place verification_day verification_month : String),
      occursIn
        (center_ ("IN THE HON\x27BLE HIGH COURT OF " ++ pyUpper court_name ++ " AT " ++
          pyUpper court_place) 80)
        (generate_affidavit court_name court_place petition_no year petitioner respondent
          deponent_name deponent_age father_or_husband_name residence paragraphs_true_up_to
          annexures_range verification_place verification_day verification_month) ∧
      occursIn (petitioner ++ ("\n    ...Petitioner" ++ "\nVs.\n"))
        (generate_affidavit court_name court_place petition_no year petitioner respondent
          deponent_name deponent_age father_or_husband_name residence paragraphs_true_up_to
          annexures_range verification_place verification_day verification_month) ∧
      occursIn ("Affidavit of " ++ (deponent_name ++ ", aged about "))
        (generate_affidavit court_name court_place petition_no year petitioner respondent
          deponent_name deponent_age father_or_husband_name residence paragraphs_true_up_to
          annexures_range verification_place verification_day verification_month)) ∧
    (∀ (principal_name advocate_name court_name case_title role : String)
       (enrolment_no : Option String) (date_signed place : String),
      occursIn ("BEFORE THE " ++ (pyUpper court_name ++ ("\n\nCase / Matter: " ++ case_title)))
        (generate_vakalatnama principal_name advocate_name court_name case_title role
          enrolment_no date_signed place) ∧
      occursIn ("I/We, " ++ (principal_name ++ ", do hereby appoint and retain "))
        (generate_vakalatnama principal_name advocate_name court_name case_title role
          enrolment_no date_signed place)) := by
  constructor
  · intro court_name court_place petition_no year petitioner respondent deponent_name
      deponent_age father_or_husband_name residence paragraphs_true_up_to annexures_range
      verification_place verification_day verification_month
    refine ⟨?_, ?_, ?_⟩
    · simp only [generate_affidavit, pyJoin]
      simp only [String.append_assoc]
      repeat first
        | exact occursIn_at1 _ _
        | apply occursIn_append_left
    · simp only [generate_affidavit, pyJoin]
      simp only [String.append_assoc]
      repeat first
        | exact occursIn_at3 _ _ _ _
        | apply occursIn_append_left
    · simp only [generate_affidavit, pyJoin]
      simp only [String.append_assoc]
      repeat first
        | exact occursIn_at3 _ _ _ _
        | apply occursIn_append_left
  · intro principal_name advocate_name court_name case_title role enrolment_no date_signed place
    constructor
    · simp only [generate_vakalatnama]
      simp only [String.append_assoc]
      repeat first
        | exact occursIn_at4 _ _ _ _ _
        | apply occursIn_append_left
    · simp only [generate_vakalatnama]
      simp only [String.append_assoc]
      repeat first
        | exact occursIn_at3 _ _ _ _
        | apply occursIn_append_left

end Legal

namespace Legal

/-! ### C1: required-field enforcement -/

set_option maxRecDepth 100000 in
/-- C1 counterexample: a call of the Writ Affidavit generator that supplies
every required parameter but leaves `court_name` as the empty string is not
rejected: no error of any kind is raised and a fully rendered document (with
the empty value interpolated) is returned. -/
theorem claim1_counterexample :
    call_generate_affidavit affidavitCallEmptyCourt =
      Except.ok (generate_affidavit ("") ("Jabalpur") ("123/2025") ("2025") ("P") ("R") ("D")
        ("30") ("F") ("X") 20 ("A to T") ("") ("") ("")) := rfl

/-- C1 (amended): omitting a required parameter of any of the seven
generators fails before the template body runs, with an error that names the
missing parameter and returns no text; an empty value, however, is accepted
and interpolated. -/
theorem claim1_required_amended :
    (∀ (a : AffidavitCall) (f : String), f ∈ affidavitMissing a →
      ∃ m, call_generate_affidavit a = Except.error m ∧ occursIn f m) ∧
    (∀ (a : NameChangeCall) (f : String), f ∈ nameChangeMissing a →
      ∃ m, call_generate_name_change_affidavit a = Except.error m ∧ occursIn f m) ∧
    (∀ (a : WillCall) (f : String), f ∈ willMissing a →
      ∃ m, call_generate_will a = Except.error m ∧ occursIn f m) ∧
    (∀ (a : PoaCall) (f : String), f ∈ poaMissing a →
      ∃ m, call_generate_power_of_attorney a = Except.error m ∧ occursIn f m) ∧
    (∀ (a : SpaCall) (f : String), f ∈ spaMissing a →
      ∃ m, call_generate_special_power_of_attorney a = Except.error m ∧ occursIn f m) ∧
    (∀ (a : VakalatnamaCall) (f : String), f ∈ vakalatnamaMissing a →
      ∃ m, call_generate_vakalatnama a = Except.error m ∧ occursIn f m) ∧
    (∀ (a : LeaseCall) (f : String), f ∈ leaseMissing a →
      ∃ m, call_generate_tenancy_lease a = Except.error m ∧ occursIn f m) := by
  refine ⟨?_, ?_, ?_, ?_, ?_, ?_, ?_⟩
  · intro a f hf
    cases h : affidavitMissing a with
    | nil => rw [h] at hf; exact absurd hf (List.not_mem_nil f)
    | cons x xs =>
      rw [h] at hf
      refine ⟨pyTypeError ("generate_affidavit") (x :: xs), ?_, occursIn_pyTypeError _ hf⟩
      simp only [call_generate_affidavit, h]
  · intro a f hf
    cases h : nameChangeMissing a with
    | nil => rw [h] at hf; exact absurd hf (List.not_mem_nil f)
    | cons x xs =>
      rw [h] at hf
      refine ⟨pyTypeError ("generate_name_change_affidavit") (x :: xs), ?_,
        occursIn_pyTypeError _ hf⟩
      simp only [call_generate_name_change_affidavit, h]
  · intro a f hf
    cases h : willMissing a with
    | nil => rw [h] at hf; exact absurd hf (List.not_mem_nil f)
    | cons x xs =>
      rw [h] at hf
      refine ⟨pyTypeError ("generate_will") (x :: xs), ?_, occursIn_pyTypeError _ hf⟩
      simp only [call_generate_will, h]
  · intro a f hf
    cases h : poaMissing a with
    | nil => rw [h] at hf; exact absurd hf (List.not_mem_nil f)
    | cons x xs =>
      rw [h] at hf
      refine ⟨pyTypeError ("generate_power_of_attorney") (x :: xs), ?_,
        occursIn_pyTypeError _ hf⟩
      simp only [call_generate_power_of_attorney, h]
  · intro a f hf
    cases h : spaMissing a with
    | nil => rw [h] at hf; exact absurd hf (List.not_mem_nil f)
    | cons x xs =>
      rw [h] at hf
      refine ⟨pyTypeError ("generate_special_power_of_attorney") (x :: xs), ?_,
        occursIn_pyTypeError _ hf⟩
      simp only [call_generate_special_power_of_attorney, h]
  · intro a f hf
    cases h : vakalatnamaMissing a with
    | nil => rw [h] at hf; exact absurd hf (List.not_mem_nil f)
    | cons x xs =>
      rw [h] at hf
      refine ⟨pyTypeError ("generate_vakalatnama") (x :: xs), ?_, occursIn_pyTypeError _ hf⟩
      simp only [call_generate_vakalatnama, h]
  · intro a f hf
    cases h : leaseMissing a with
    | nil => rw [h] at hf; exact absurd hf (List.not_mem_nil f)
    | cons x xs =>
      rw [h] at hf
      refine ⟨pyTypeError ("generate_tenancy_lease") (x :: xs), ?_, occursIn_pyTypeError _ hf⟩
      simp only [call_generate_tenancy_lease, h]

/-- Witness for the amended C1 theorem: omitting only `court_name` makes the
Writ Affidavit call fail with an error naming `court_name`. -/
theorem claim1_witness :
    ∃ m, call_generate_affidavit affidavitCallNoCourt = Except.error m ∧
      occursIn ("court_name") m :=
  claim1_required_amended.1 affidavitCallNoCourt ("court_name") (by decide)

/-! ### C2: determinism of the generators -/

/-- C2: each generator is a pure function of its field set: two calls with
equal inputs produce equal (byte-identical) text.  The embedded generators
are total functions into strings, with no clock, randomness, environment
or mutable state in any code path. -/
theorem claim2_determinism :
    (∀ a b : AffidavitCall, a = b →
      call_generate_affidavit a = call_generate_affidavit b) ∧
    (∀ a b : NameChangeCall, a = b →
      call_generate_name_change_affidavit a = call_generate_name_change_affidavit b) ∧
    (∀ a b : WillCall, a = b → call_generate_will a = call_generate_will b) ∧
    (∀ a b : PoaCall, a = b →
      call_generate_power_of_attorney a = call_generate_power_of_attorney b) ∧
    (∀ a b : SpaCall, a = b →
      call_generate_special_power_of_attorney a = call_generate_special_power_of_attorney b) ∧
    (∀ a b : VakalatnamaCall, a = b →
      call_generate_vakalatnama a = call_generate_vakalatnama b) ∧
    (∀ a b : LeaseCall, a = b →
      call_generate_tenancy_lease a = call_generate_tenancy_lease b) :=
  ⟨fun _ _ h => by rw [h], fun _ _ h => by rw [h], fun _ _ h => by rw [h],
   fun _ _ h => by rw [h], fun _ _ h => by rw [h], fun _ _ h => by rw [h],
   fun _ _ h => by rw [h]⟩

/-- Witness for C2: the two renderings of one concrete call coincide. -/
theorem claim2_witness :
    call_generate_affidavit affidavitCallEmptyCourt =
      call_generate_affidavit affidavitCallEmptyCourt :=
  claim2_determinism.1 affidavitCallEmptyCourt affidavitCallEmptyCourt rfl

end Legal
